import Mathlib

/-!
Verification of the lead-sourcing and qualification pipeline
(`automation/scraper.py`, `automation/qualifier.py`, `automation/scheduler.py`,
`automation/follow_up_engine.py`, `models.py`) against its natural-language
specification.  Python functions are shallowly embedded as executable Lean
definitions; machine integers are modelled as `Int`/`Nat` (Python integers are
unbounded, so no wrap-around modelling is needed), Python `None`-able values as
`Option`, and fallible paths as `Option`/`Except`.
-/

namespace Antigravity

/-! ## Scraper data model (`automation/scraper.py`) -/

/-- `RawLead` dataclass from `automation/scraper.py` (lines 44-59).
`source_created_at` is modelled as an epoch timestamp. -/
structure RawLead where
  username : String
  platform : String
  title : String
  content : String
  post_url : String
  external_id : String := ""
  source : String := ""
  language : String := "en"
  profile_url : Option String := none
  email : Option String := none
  source_created_at : Option Int := none
  engagement_score : Int := 0
  num_comments : Int := 0
deriving Repr, DecidableEq

/-- Python's substring test `sub in s`: true when `sub` is empty or occurs in
`s` (for nonempty `sub`, `s.splitOn sub` has at least two pieces exactly when
`sub` occurs in `s`). -/
def pyInStr (sub s : String) : Bool :=
  sub.isEmpty || (s.splitOn sub).length != 1

/-- `MultiPlatformScraper.filter_by_keywords` (scraper.py lines 644-658):
keep leads whose lowercased `title ++ " " ++ content` contains at least one
lowercased keyword; an empty keyword list passes everything through. -/
def filter_by_keywords (leads : List RawLead) (keywords : List String) : List RawLead :=
  if keywords.isEmpty then leads
  else leads.filter fun lead =>
    keywords.any fun kw => pyInStr kw.toLower (lead.title ++ " " ++ lead.content).toLower

/-- `MultiPlatformScraper.filter_by_engagement` (scraper.py lines 660-673):
keep a lead when its platform is `"indiehackers"` (no engagement signal there)
or its engagement score reaches the threshold.  The threshold argument models
`min_score if min_score is not None else self.min_engagement`. -/
def filter_by_engagement (threshold : Int) (leads : List RawLead) : List RawLead :=
  leads.filter fun lead =>
    lead.platform == "indiehackers" || decide (threshold ≤ lead.engagement_score)

/-- Natural dedup key (scraper.py lines 683-687): `platform:external_id` when
`external_id` is nonempty, else `platform:username:title[:50]`. -/
def dedupKey (lead : RawLead) : String :=
  if lead.external_id ≠ "" then lead.platform ++ ":" ++ lead.external_id
  else lead.platform ++ ":" ++ lead.username ++ ":" ++ lead.title.take 50

/-- Loop body of `MultiPlatformScraper.deduplicate` (scraper.py lines 675-694):
walk the list keeping a `seen` set of keys; a lead whose key was already seen
is dropped, otherwise it is kept and its key recorded. -/
def dedupGo (seen : List String) : List RawLead → List RawLead
  | [] => []
  | lead :: rest =>
    if dedupKey lead ∈ seen then dedupGo seen rest
    else lead :: dedupGo (dedupKey lead :: seen) rest

/-- `MultiPlatformScraper.deduplicate` entry point. -/
def deduplicate (leads : List RawLead) : List RawLead := dedupGo [] leads

/-- Stable insertion for the descending engagement sort: place `x` before the
first element whose engagement does not exceed `x`'s, preserving input order
among equal scores (Python's `list.sort` is stable). -/
def insertByEngagementDesc (x : RawLead) : List RawLead → List RawLead
  | [] => [x]
  | y :: ys =>
    if y.engagement_score ≤ x.engagement_score then x :: y :: ys
    else y :: insertByEngagementDesc x ys

/-- `unique.sort(key=lambda x: x.engagement_score, reverse=True)`
(scraper.py line 755): stable sort by engagement score, highest first. -/
def sortByEngagementDesc (leads : List RawLead) : List RawLead :=
  leads.foldr insertByEngagementDesc []

/-- Filtering tail of `MultiPlatformScraper.scrape_all` (scraper.py lines
749-755): keyword filter, then engagement filter, then deduplication, then the
descending engagement sort. -/
def scrapePipeline (keywords : List String) (minEngagement : Int)
    (leads : List RawLead) : List RawLead :=
  sortByEngagementDesc
    (deduplicate (filter_by_engagement minEngagement (filter_by_keywords leads keywords)))

/-! ## Polite fetcher (`polite_get`, scraper.py lines 65-100)

The outcome of the underlying `requests.get` call is abstracted as a
`FetchOutcome`; the embedding records which value `polite_get` returns and
whether the post-call jitter sleep (`time.sleep(random.uniform(...))`) runs
before returning. -/

/-- How the wrapped `requests.get(url, ...)` call can complete. -/
inductive FetchOutcome where
  | success (body : String)
  | timeout
  | httpError (status : Nat)
  | networkError (msg : String)
deriving Repr, DecidableEq

/-- `polite_get` control flow: on `requests.exceptions.Timeout`,
`requests.exceptions.HTTPError` (raised by `raise_for_status`), or any other
exception, the function logs and returns `None` immediately; only on success
does it reach the jitter sleep and return the response.  Result: the returned
response (if any) paired with whether the post-call sleep ran. -/
def polite_get (outcome : FetchOutcome) : Option String × Bool :=
  match outcome with
  | .success body => (some body, true)
  | .timeout => (none, false)
  | .httpError _ => (none, false)
  | .networkError _ => (none, false)

/-! ## Outbound request accounting (claim C2)

Each `RedditJSONScraper.scrape_subreddit_search` call performs exactly one
`polite_get`; `HackerNewsScraper.scrape` performs one in `scrape_show_hn` and
one in `scrape_ask_hn`; `IndieHackersScraper.scrape` performs one in
`scrape_feed` — in every case the fetch is issued before the response is
inspected, so the counts below depend only on control flow, not on the
responses. -/

/-- English subreddit list, `SUBREDDITS_BY_LANGUAGE["en"]` (scraper.py
lines 111-112); `RedditJSONScraper.SUBREDDITS` aliases it. -/
def SUBREDDITS_EN : List String :=
  ["Entrepreneur", "startups", "smallbusiness", "GrowthHacking", "SaaS",
   "marketing", "digital_marketing", "freelance", "webdev", "sideproject"]

/-- Inner keyword loop of `RedditJSONScraper.scrape` (lines 281-286): for each
of the first three keywords, break if the budget is reached, otherwise issue
one search request and increment the counter. -/
def redditKeywordLoop (maxRequests : Nat) : Nat → Nat → Nat
  | 0, count => count
  | k + 1, count =>
    if maxRequests ≤ count then count
    else redditKeywordLoop maxRequests k (count + 1)

/-- Outer subreddit loop of `RedditJSONScraper.scrape` (lines 275-286): for
each subreddit, break if the budget is reached, otherwise run the keyword
loop. -/
def redditSubredditLoop (kwCount maxRequests : Nat) :
    List String → Nat → Nat
  | [], count => count
  | _ :: rest, count =>
    if maxRequests ≤ count then count
    else redditSubredditLoop kwCount maxRequests rest (redditKeywordLoop maxRequests kwCount count)

/-- Number of `polite_get` calls issued by one `RedditJSONScraper.scrape`
invocation with the given keywords, subreddits, and `max_requests` budget. -/
def redditScrapeRequests (keywords subreddits : List String) (maxRequests : Nat) : Nat :=
  redditSubredditLoop (keywords.take 3).length maxRequests subreddits 0

/-- `HackerNewsScraper.scrape` always issues two `polite_get` calls
(`scrape_show_hn` and `scrape_ask_hn`), regardless of responses or keywords. -/
def hnScrapeRequests : Nat := 2

/-- `IndieHackersScraper.scrape` always issues one `polite_get` call
(`scrape_feed`). -/
def ihScrapeRequests : Nat := 1

/-- Number of `polite_get` calls issued by one `MultiPlatformScraper.scrape_all`
invocation (scraper.py lines 696-747): per platform, Reddit runs its budgeted
search loop over the default `SUBREDDITS[:7]`, while the Hacker News and
Indie Hackers adapters are invoked without consulting the budget (their
fetches happen even when `language != "en"`; only the *extend* of their
results is language-guarded).  Unknown platforms are skipped. -/
def scrapeAllRequests (keywords platforms : List String) (maxRequests : Nat) : Nat :=
  platforms.foldl
    (fun acc p =>
      if p == "reddit" then
        acc + redditScrapeRequests keywords (SUBREDDITS_EN.take 7) maxRequests
      else if p == "hackernews" then acc + hnScrapeRequests
      else if p == "indiehackers" then acc + ihScrapeRequests
      else acc)
    0

/-! ### Concrete candidates for the end-to-end scenario (claim C1) -/

/-- Reddit candidate sharing `external_id` "abc", engagement 10. -/
def redditLead10 : RawLead :=
  { username := "alice", platform := "reddit", title := "need clients",
    content := "looking for customers", post_url := "https://reddit.com/p/abc1",
    external_id := "abc", source := "r/startups", engagement_score := 10,
    num_comments := 4 }

/-- Reddit candidate sharing `external_id` "abc", engagement 4. -/
def redditLead4 : RawLead :=
  { username := "bob", platform := "reddit", title := "need clients too",
    content := "looking for customers", post_url := "https://reddit.com/p/abc2",
    external_id := "abc", source := "r/startups", engagement_score := 4,
    num_comments := 1 }

/-- Unique Hacker News candidate with no engagement signal (the `RawLead`
default `engagement_score = 0`). -/
def hnLead : RawLead :=
  { username := "carol", platform := "hackernews", title := "Show HN: my tool",
    content := "Show HN: my tool", post_url := "https://news.ycombinator.com/item?id=9",
    external_id := "z9", source := "Show HN" }

/-! ## Qualifier (`automation/qualifier.py`) -/

/-- The `lead_data` dict handed to `LeadQualifier.qualify_lead`. -/
structure LeadData where
  username : String
  platform : String
  title : String
  content : String
  post_url : String
  profile_url : Option String := none
  email : Option String := none
deriving Repr, DecidableEq

/-- Parsed JSON response of the scoring service, as read by `qualify_lead`
via `result.get(field, default)`: every field may be absent.  Numeric fields
are modelled as `Option Int` (out-of-range values are representable; a field
of the wrong JSON type would make Python's `min`/`max` raise and the whole
qualification return `None`, a path outside this record). -/
structure ScoringResponse where
  score : Option Int := none
  urgency : Option Int := none
  budget_indicator : Option String := none
  market_size : Option String := none
  willingness_to_pay : Option Int := none
  problem_summary : Option String := none
  pain_points : Option (List String) := none
  recommended_approach : Option String := none
deriving Repr, DecidableEq

/-- `QualifiedLead` dataclass from `automation/qualifier.py` (lines 24-46). -/
structure QualifiedLead where
  username : String
  platform : String
  title : String
  content : String
  post_url : String
  profile_url : Option String
  email : Option String
  score : Int
  urgency : Int
  budget_indicator : String
  market_size : String
  willingness_to_pay : Int
  problem_summary : String
  pain_points : List String
  recommended_approach : String
deriving Repr, DecidableEq

/-- Successful-parse path of `LeadQualifier.qualify_lead` (qualifier.py lines
148-164): build the `QualifiedLead`, clamping each bounded integer field with
`min(10, max(1, result.get(field, 5)))` and defaulting missing text fields. -/
def qualify_lead (lead_data : LeadData) (result : ScoringResponse) : QualifiedLead :=
  { username := lead_data.username
    platform := lead_data.platform
    title := lead_data.title
    content := lead_data.content
    post_url := lead_data.post_url
    profile_url := lead_data.profile_url
    email := lead_data.email
    score := min 10 (max 1 (result.score.getD 5))
    urgency := min 10 (max 1 (result.urgency.getD 5))
    budget_indicator := result.budget_indicator.getD "medium"
    market_size := result.market_size.getD "small"
    willingness_to_pay := min 10 (max 1 (result.willingness_to_pay.getD 5))
    problem_summary := result.problem_summary.getD ""
    pain_points := result.pain_points.getD []
    recommended_approach := result.recommended_approach.getD "" }

/-! ## Persisted Lead model and scheduler pipeline (`models.py`,
`automation/scheduler.py`) -/

/-- Persisted `Lead` row (`models.py` lines 84-151), restricted to the columns
the scraping pipeline, AI scoring, and follow-up engine read or write; the
remaining columns (email bookkeeping, enrichment, timestamps) are independent
of every verified property. -/
structure DbLead where
  user_id : Nat
  username : String
  platform : String
  title : String
  content : String
  post_url : String
  profile_url : Option String
  external_id : String
  source : String
  language : String
  source_type : String
  status : String
  score : Int
  urgency : Int := 0
  problem_summary : String := ""
  budget_indicator : String := ""
  email_replied : Bool := false
deriving Repr, DecidableEq

/-- Initial score assigned at persistence time (scheduler.py line 174):
`min(10, max(1, raw.engagement_score // 5 + 5))`; Python `//` is floor
division, i.e. `Int.fdiv`. -/
def initialScore (engagement : Int) : Int :=
  min 10 (max 1 (Int.fdiv engagement 5 + 5))

/-- The `Lead(...)` constructed by `run_real_scraping_pipeline` (scheduler.py
lines 160-175). -/
def mkLead (user_id : Nat) (raw : RawLead) : DbLead :=
  { user_id := user_id
    username := raw.username
    platform := raw.platform
    title := raw.title
    content := raw.content
    post_url := raw.post_url
    profile_url := raw.profile_url
    external_id := raw.external_id
    source := raw.source
    language := raw.language
    source_type := "real"
    status := "new"
    score := initialScore raw.engagement_score }

/-- Duplicate check of `run_real_scraping_pipeline` (scheduler.py lines
150-153): an existing lead of the same user whose `external_id` **or**
`post_url` matches the candidate. -/
def leadExistsFor (table : List DbLead) (user_id : Nat) (raw : RawLead) : Bool :=
  table.any fun l =>
    l.user_id == user_id &&
      (l.external_id == raw.external_id || l.post_url == raw.post_url)

/-- One iteration of the persistence loop (scheduler.py lines 148-177): skip
the candidate when the duplicate check fires, otherwise add the new `Lead`
row.  Rows added earlier in the same cycle are visible to later duplicate
checks (SQLAlchemy autoflushes the pending session before each query). -/
def persistStep (table : List DbLead) (user_id : Nat) (raw : RawLead) : List DbLead :=
  if leadExistsFor table user_id raw then table else table ++ [mkLead user_id raw]

/-- The whole persistence loop over one cycle's deduplicated candidates. -/
def persistCandidates (table : List DbLead) (user_id : Nat)
    (raws : List RawLead) : List DbLead :=
  raws.foldl (fun t raw => persistStep t user_id raw) table

/-- Repeated scheduler cycles: each cycle persists its scraped batch against
the table left by the previous cycles. -/
def persistCycles (table : List DbLead) (user_id : Nat)
    (cycles : List (List RawLead)) : List DbLead :=
  cycles.foldl (fun t raws => persistCandidates t user_id raws) table

/-- Per-tenant natural key of a persisted lead (spec section 3). -/
def naturalKey (l : DbLead) : String × String := (l.platform, l.external_id)

/-- No two persisted leads of tenant `u` share a `(platform, external_id)`
pair. -/
def TenantKeyNodup (table : List DbLead) (u : Nat) : Prop :=
  (table.filter fun l => l.user_id == u).Pairwise fun a b => naturalKey a ≠ naturalKey b

/-! ### `run_ai_scoring` (scheduler.py lines 200-241) -/

/-- Keys of the dict `run_ai_scoring` passes to `qualifier.qualify_lead`
(scheduler.py lines 218-223).  `qualify_lead` reads `lead_data['post_url']`
while formatting its prompt (qualifier.py line 119), before its `try` block. -/
def schedulerQualifyInputKeys : List String :=
  ["title", "content", "platform", "username"]

/-- Python attribute values reachable on a `QualifiedLead` dataclass. -/
inductive PyVal where
  | int (i : Int)
  | str (s : String)
  | optStr (s : Option String)
  | strList (l : List String)
deriving Repr, DecidableEq

/-- Attribute lookup on the `QualifiedLead` dataclass: exactly the dataclass
fields resolve; any other attribute (in particular `get`, a `dict` method no
dataclass defines) raises `AttributeError`, modelled as `none`. -/
def QualifiedLead.attr (q : QualifiedLead) : String → Option PyVal
  | "username" => some (.str q.username)
  | "platform" => some (.str q.platform)
  | "title" => some (.str q.title)
  | "content" => some (.str q.content)
  | "post_url" => some (.str q.post_url)
  | "profile_url" => some (.optStr q.profile_url)
  | "email" => some (.optStr q.email)
  | "score" => some (.int q.score)
  | "urgency" => some (.int q.urgency)
  | "budget_indicator" => some (.str q.budget_indicator)
  | "market_size" => some (.str q.market_size)
  | "willingness_to_pay" => some (.int q.willingness_to_pay)
  | "problem_summary" => some (.str q.problem_summary)
  | "pain_points" => some (.strList q.pain_points)
  | "recommended_approach" => some (.str q.recommended_approach)
  | _ => none

/-- Per-lead body of `run_ai_scoring` (scheduler.py lines 216-233) given the
qualifier's return value.  When a `QualifiedLead` is returned, the first
update statement `result.get('score', lead.score)` performs attribute lookup
of `get` on the dataclass; if it resolved, the score/urgency/problem_summary/
budget_indicator updates would run, but it raises `AttributeError`, which the
surrounding `except Exception: continue` swallows, leaving the lead
untouched. -/
def runAiScoringLead (lead : DbLead) (qres : Option QualifiedLead) : DbLead :=
  match qres with
  | none => lead
  | some result =>
    match result.attr "get" with
    | some _ =>
      { lead with
        score := result.score
        urgency := result.urgency
        problem_summary := result.problem_summary
        budget_indicator := result.budget_indicator }
    | none => lead

/-! ## Follow-up engine (`automation/follow_up_engine.py`) -/

/-- `FollowUpEmail` dataclass (follow_up_engine.py lines 38-47), restricted to
the scheduling fields; the long body template texts are opaque strings no
verified property inspects, so they are elided to `""` in the concrete
sequences below. -/
structure FollowUpEmail where
  sequence_position : Nat
  delay_days : Nat
  subject_template : String
  body_template : String
deriving Repr, DecidableEq

/-- `FollowUpSequence` dataclass (lines 60-65). -/
structure FollowUpSequence where
  name : String
  description : String
  emails : List FollowUpEmail
  is_active : Bool := true
deriving Repr, DecidableEq

/-- `DEFAULT_SEQUENCES["saas_demo"]`: four emails with delays 0, 2, 4, 7. -/
def saas_demo : FollowUpSequence :=
  { name := "SaaS Demo Request"
    description := "For leads interested in software demos"
    emails :=
      [{ sequence_position := 1, delay_days := 0,
         subject_template := "Re: Your {platform} post about {topic}", body_template := "" },
       { sequence_position := 2, delay_days := 2,
         subject_template := "Quick follow-up - {topic}", body_template := "" },
       { sequence_position := 3, delay_days := 4,
         subject_template := "One more thing about {topic}", body_template := "" },
       { sequence_position := 4, delay_days := 7,
         subject_template := "Last try - {topic}", body_template := "" }] }

/-- `DEFAULT_SEQUENCES["local_business"]`: three emails with delays 0, 3, 5. -/
def local_business : FollowUpSequence :=
  { name := "Local Business Outreach"
    description := "For local business lead generation"
    emails :=
      [{ sequence_position := 1, delay_days := 0,
         subject_template := "Helping {business_name} get more customers", body_template := "" },
       { sequence_position := 2, delay_days := 3,
         subject_template := "Free audit for {business_name}", body_template := "" },
       { sequence_position := 3, delay_days := 5,
         subject_template := "Your competitors are doing this...", body_template := "" }] }

/-- `DEFAULT_SEQUENCES["freelance_services"]`: three emails with delays
0, 2, 5. -/
def freelance_services : FollowUpSequence :=
  { name := "Freelance Services"
    description := "For selling freelance/consulting services"
    emails :=
      [{ sequence_position := 1, delay_days := 0,
         subject_template := "Saw your post about {topic}", body_template := "" },
       { sequence_position := 2, delay_days := 2,
         subject_template := "Ideas for {topic}", body_template := "" },
       { sequence_position := 3, delay_days := 5,
         subject_template := "Still thinking about {topic}?", body_template := "" }] }

/-- `FollowUpEngine.get_sequence`: name lookup in `DEFAULT_SEQUENCES`. -/
def get_sequence : String → Option FollowUpSequence
  | "saas_demo" => some saas_demo
  | "local_business" => some local_business
  | "freelance_services" => some freelance_services
  | _ => none

/-- One row of the schedule list built by `create_follow_up_schedule`
(follow_up_engine.py lines 298-306); `scheduled_for` is in days relative to
the epoch of `start_date`. -/
structure ScheduleEntry where
  lead_id : Nat
  sequence_name : String
  position : Nat
  scheduled_for : Int
  subject_template : String
  body_template : String
  status : String
deriving Repr, DecidableEq

/-- Loop of `create_follow_up_schedule` (lines 295-308): each email is
scheduled `delay_days` after the previous one (`current_date` advances to the
just-scheduled time). -/
def scheduleLoop (lead_id : Nat) (sequence_name : String) (current : Int) :
    List FollowUpEmail → List ScheduleEntry
  | [] => []
  | email :: rest =>
    let scheduled := current + email.delay_days
    { lead_id := lead_id
      sequence_name := sequence_name
      position := email.sequence_position
      scheduled_for := scheduled
      subject_template := email.subject_template
      body_template := email.body_template
      status := "pending" } :: scheduleLoop lead_id sequence_name scheduled rest

/-- `FollowUpEngine.create_follow_up_schedule` (lines 277-310): `none` models
the `ValueError` raised for an unknown sequence name. -/
def create_follow_up_schedule (lead_id : Nat) (sequence_name : String)
    (start_date : Int) : Option (List ScheduleEntry) :=
  (get_sequence sequence_name).map fun seq =>
    scheduleLoop lead_id sequence_name start_date seq.emails

/-- Key of the `UNIQUE(lead_id, sequence_name, position)` constraint declared
on `lead_follow_ups` in `FOLLOWUP_MODEL_SQL` (follow_up_engine.py line 452). -/
def entryKey (e : ScheduleEntry) : Nat × String × Nat :=
  (e.lead_id, e.sequence_name, e.position)

/-- Insert one schedule row through the persistence boundary: a row whose
`(lead_id, sequence_name, position)` key already exists is rejected by the
uniqueness constraint and the table is unchanged. -/
def insertEntry (table : List ScheduleEntry) (e : ScheduleEntry) : List ScheduleEntry :=
  if table.any (fun r => entryKey r == entryKey e) then table else table ++ [e]

/-- Persist a whole created schedule, row by row. -/
def insertSchedule (table : List ScheduleEntry) (entries : List ScheduleEntry) :
    List ScheduleEntry :=
  entries.foldl insertEntry table

/-- No two rows of the table share a `(lead_id, sequence_name, position)`
key. -/
def EntryKeyNodup (table : List ScheduleEntry) : Prop :=
  table.Pairwise fun a b => entryKey a ≠ entryKey b

/-- The schedule `create_follow_up_schedule(1, "saas_demo", 0)` produces,
used as a concrete persistence sample. -/
def saasScheduleSample : List ScheduleEntry :=
  (create_follow_up_schedule 1 "saas_demo" 0).getD []

/-- `STOP_STATUSES` (follow_up_engine.py line 422). -/
def STOP_STATUSES : List String := ["replied", "converted", "archived", "bad_fit"]

/-- `FollowUpEngine.should_continue_sequence` (lines 399-431) on the looked-up
lead (`none` when `Lead.query.get` found nothing): lead missing, then
`email_replied`, then terminal status, otherwise continue.  The pure embedding
has no failing lookup, so the fail-open `except` branch is unreachable. -/
def should_continue_sequence (lead : Option DbLead) : Bool × String :=
  match lead with
  | none => (false, "Lead not found")
  | some l =>
    if l.email_replied then (false, "Lead replied")
    else if STOP_STATUSES.contains l.status then (false, "Lead status is " ++ l.status)
    else (true, "Continue")

/-! ## Concrete sample leads used by witnesses -/

/-- An active lead: status "new", no reply. -/
def sampleFreshLead : DbLead :=
  { user_id := 1, username := "alice", platform := "reddit", title := "t", content := "c",
    post_url := "u", profile_url := none, external_id := "abc", source := "r/startups",
    language := "en", source_type := "real", status := "new", score := 7 }

/-- The same lead after a detected reply. -/
def sampleRepliedLead : DbLead := { sampleFreshLead with email_replied := true }

/-- The same lead after conversion (terminal status). -/
def sampleConvertedLead : DbLead := { sampleFreshLead with status := "converted" }

/-! ## Helper lemmas -/

/-- Lower bound of the `min(10, max(1, x))` clamp. -/
theorem one_le_clamp (x : Int) : 1 ≤ min 10 (max 1 x) :=
  le_min (by norm_num) (le_max_left 1 x)

/-- Upper bound of the `min(10, max(1, x))` clamp. -/
theorem clamp_le_ten (x : Int) : min 10 (max 1 x) ≤ 10 := min_le_left _ _

/-- Deduplication with an accumulated seen-set, restricted to one key: nothing
survives for a key already seen, and otherwise exactly the first input lead
bearing the key survives. -/
theorem dedupGo_filter (k : String) :
    ∀ (leads : List RawLead) (seen : List String),
      (dedupGo seen leads).filter (fun l => dedupKey l == k) =
        if k ∈ seen then [] else (leads.filter (fun l => dedupKey l == k)).take 1 := by
  intro leads
  induction leads with
  | nil => intro seen; simp [dedupGo]
  | cons l ls ih =>
    intro seen
    by_cases hmem : dedupKey l ∈ seen
    · rw [dedupGo, if_pos hmem, ih]
      by_cases hk : k ∈ seen
      · simp [hk]
      · have hne : ¬ (dedupKey l == k) = true := by
          simp only [beq_iff_eq]
          intro h; exact hk (h ▸ hmem)
        simp [hk, List.filter_cons, hne]
    · rw [dedupGo, if_neg hmem]
      by_cases hkl : dedupKey l = k
      · subst hkl
        have hk : ¬ (dedupKey l) ∈ seen := hmem
        rw [List.filter_cons]
        simp only [beq_self_eq_true, if_pos]
        rw [ih]
        simp [List.filter_cons, hk]
      · have hne : ¬ (dedupKey l == k) = true := by simp [beq_iff_eq, hkl]
        rw [List.filter_cons]
        simp only [hne]
        rw [ih]
        have : (k ∈ dedupKey l :: seen) ↔ (k ∈ seen) := by
          simp [List.mem_cons]
          intro h; exact absurd h.symm hkl
        by_cases hk : k ∈ seen
        · simp [hk, this, List.filter_cons, hne]
        · simp [hk, this, List.filter_cons, hne]

/-- Rows already in the table survive any further constraint-guarded
inserts. -/
theorem mem_insertSchedule_of_mem :
    ∀ (entries : List ScheduleEntry) (table : List ScheduleEntry) (x : ScheduleEntry),
      x ∈ table → x ∈ insertSchedule table entries := by
  intro entries
  induction entries with
  | nil => intro t x hx; simpa [insertSchedule] using hx
  | cons e es ih =>
    intro t x hx
    have : x ∈ insertEntry t e := by
      unfold insertEntry
      split
      · exact hx
      · exact List.mem_append_left _ hx
    simpa [insertSchedule, List.foldl_cons] using ih (insertEntry t e) x this

/-- After inserting a schedule, every inserted row's key is present in the
table (either the row itself went in, or a previously stored row carries the
key). -/
theorem key_covered_insertSchedule :
    ∀ (entries : List ScheduleEntry) (table : List ScheduleEntry) (e : ScheduleEntry),
      e ∈ entries → ∃ r ∈ insertSchedule table entries, entryKey r = entryKey e := by
  intro entries
  induction entries with
  | nil => intro t e he; simp at he
  | cons a es ih =>
    intro t e he
    rcases List.mem_cons.mp he with h | h
    · subst h
      by_cases hc : (t.any fun r => entryKey r == entryKey e) = true
      · rcases List.any_eq_true.mp hc with ⟨r, hr, hkey⟩
        exact ⟨r, mem_insertSchedule_of_mem es (insertEntry t e) r
          (by unfold insertEntry; rw [if_pos hc]; exact hr), beq_iff_eq.mp hkey⟩
      · refine ⟨e, mem_insertSchedule_of_mem es (insertEntry t e) e ?_, rfl⟩
        unfold insertEntry
        rw [if_neg hc]
        exact List.mem_append_right _ (List.mem_singleton.mpr rfl)
    · exact ih (insertEntry t a) e h

/-- Inserting rows whose keys all already exist in the table is a no-op. -/
theorem insertSchedule_skips_existing :
    ∀ (entries : List ScheduleEntry) (table : List ScheduleEntry),
      (∀ e ∈ entries, ∃ r ∈ table, entryKey r = entryKey e) →
        insertSchedule table entries = table := by
  intro entries
  induction entries with
  | nil => intro t _; rfl
  | cons e es ih =>
    intro t h
    rcases h e (List.mem_cons_self e es) with ⟨r, hr, hk⟩
    have hc : (t.any fun r => entryKey r == entryKey e) = true :=
      List.any_eq_true.mpr ⟨r, hr, beq_iff_eq.mpr hk⟩
    have step : insertEntry t e = t := by unfold insertEntry; rw [if_pos hc]
    calc insertSchedule t (e :: es) = insertSchedule (insertEntry t e) es := rfl
      _ = insertSchedule t es := by rw [step]
      _ = t := ih t fun x hx => h x (List.mem_cons_of_mem e hx)

/-- Re-inserting the same schedule a second time changes nothing. -/
theorem insertSchedule_idem :
    ∀ (entries table : List ScheduleEntry),
      insertSchedule (insertSchedule table entries) entries = insertSchedule table entries := by
  intro entries table
  exact insertSchedule_skips_existing entries _ fun e he =>
    key_covered_insertSchedule entries table e he

/-- The uniqueness constraint preserves key-distinctness of the table. -/
theorem insertSchedule_nodup :
    ∀ (entries table : List ScheduleEntry),
      EntryKeyNodup table → EntryKeyNodup (insertSchedule table entries) := by
  intro entries
  induction entries with
  | nil => intro t h; exact h
  | cons e es ih =>
    intro t h
    refine ih (insertEntry t e) ?_
    unfold insertEntry
    split
    · exact h
    · next hc =>
      unfold EntryKeyNodup at h ⊢
      rw [List.pairwise_append]
      refine ⟨h, List.pairwise_singleton _ _, ?_⟩
      intro a ha b hb
      rw [List.mem_singleton] at hb
      subst hb
      intro hkey
      exact hc (List.any_eq_true.mpr ⟨a, ha, beq_iff_eq.mpr hkey⟩)

/-- One persistence step preserves per-tenant distinctness of
`(platform, external_id)` pairs: a row is only added when no lead of the same
user shares its `external_id` (or `post_url`), so in particular no lead of the
same user shares its natural key. -/
theorem persistStep_nodup (table : List DbLead) (uid : Nat) (raw : RawLead) (u : Nat)
    (h : TenantKeyNodup table u) : TenantKeyNodup (persistStep table uid raw) u := by
  unfold persistStep
  split
  · exact h
  · next hex =>
    unfold TenantKeyNodup at h ⊢
    rw [List.filter_append]
    by_cases hu : ((mkLead uid raw).user_id == u) = true
    · rw [List.pairwise_append]
      refine ⟨h, ?_, ?_⟩
      · simp [List.pairwise_singleton, hu]
      · intro a ha b hb
        simp only [List.filter_cons, List.filter_nil, hu, if_pos] at hb
        rw [List.mem_singleton] at hb
        subst hb
        rw [List.mem_filter] at ha
        intro hkey
        apply hex
        apply List.any_eq_true.mpr
        refine ⟨a, ha.1, ?_⟩
        have huid : a.user_id == uid := by
          have h1 : a.user_id = u := beq_iff_eq.mp ha.2
          have h2 : (mkLead uid raw).user_id = u := beq_iff_eq.mp hu
          simp [mkLead] at h2
          simp [h1, h2]
        have hext : a.external_id = raw.external_id := by
          have := congrArg Prod.snd hkey
          simpa [naturalKey, mkLead] using this
        simp [huid, hext]
    · simp only [List.filter_cons, List.filter_nil, hu, if_neg, Bool.false_eq_true,
        not_false_eq_true, List.append_nil]
      exact h

/-- One cycle's persistence loop preserves per-tenant key distinctness. -/
theorem persistCandidates_nodup (raws : List RawLead) :
    ∀ (table : List DbLead) (uid u : Nat),
      TenantKeyNodup table u → TenantKeyNodup (persistCandidates table uid raws) u := by
  induction raws with
  | nil => intro t uid u h; exact h
  | cons r rs ih =>
    intro t uid u h
    exact ih (persistStep t uid r) uid u (persistStep_nodup t uid r u h)

/-- Any number of cycles preserves per-tenant key distinctness. -/
theorem persistCycles_nodup (cycles : List (List RawLead)) :
    ∀ (table : List DbLead) (uid u : Nat),
      TenantKeyNodup table u → TenantKeyNodup (persistCycles table uid cycles) u := by
  induction cycles with
  | nil => intro t uid u h; exact h
  | cons c cs ih =>
    intro t uid u h
    exact ih (persistCandidates t uid c) uid u (persistCandidates_nodup c t uid u h)

/-- A candidate whose natural key already exists for the tenant is skipped. -/
theorem persistStep_skips (table : List DbLead) (uid : Nat) (raw : RawLead)
    (h : ∃ l ∈ table, l.user_id = uid ∧ l.platform = raw.platform ∧
      l.external_id = raw.external_id) :
    persistStep table uid raw = table := by
  rcases h with ⟨l, hl, hu, _, he⟩
  unfold persistStep
  rw [if_pos]
  apply List.any_eq_true.mpr
  exact ⟨l, hl, by simp [hu, he]⟩

/-- Every row of the table after a persistence cycle was already there or is
the `mkLead` image of one of the cycle's candidates. -/
theorem mem_persistCandidates (raws : List RawLead) :
    ∀ (table : List DbLead) (uid : Nat) (l : DbLead),
      l ∈ persistCandidates table uid raws →
        l ∈ table ∨ ∃ raw ∈ raws, l = mkLead uid raw := by
  induction raws with
  | nil => intro t uid l hl; exact Or.inl hl
  | cons r rs ih =>
    intro t uid l hl
    rcases ih (persistStep t uid r) uid l hl with hmem | ⟨raw, hraw, heq⟩
    · unfold persistStep at hmem
      split at hmem
      · exact Or.inl hmem
      · rcases List.mem_append.mp hmem with h | h
        · exact Or.inl h
        · exact Or.inr ⟨r, List.mem_cons_self r rs, List.mem_singleton.mp h⟩
    · exact Or.inr ⟨raw, List.mem_cons_of_mem r hraw, heq⟩

/-- The keyword loop never pushes the request counter past the budget. -/
theorem redditKeywordLoop_le (m : Nat) :
    ∀ (k c : Nat), c ≤ m → redditKeywordLoop m k c ≤ m := by
  intro k
  induction k with
  | zero => intro c hc; exact hc
  | succ n ih =>
    intro c hc
    unfold redditKeywordLoop
    split
    · exact hc
    · next h => exact ih (c + 1) (Nat.succ_le_of_lt (Nat.lt_of_not_le h))

/-- The subreddit loop never pushes the request counter past the budget. -/
theorem redditSubredditLoop_le (kw m : Nat) :
    ∀ (subs : List String) (c : Nat), c ≤ m → redditSubredditLoop kw m subs c ≤ m := by
  intro subs
  induction subs with
  | nil => intro c hc; exact hc
  | cons s ss ih =>
    intro c hc
    unfold redditSubredditLoop
    split
    · exact hc
    · exact ih _ (redditKeywordLoop_le m kw c hc)

/-- One Reddit scrape respects its own budget. -/
theorem redditScrapeRequests_le (keywords subs : List String) (m : Nat) :
    redditScrapeRequests keywords subs m ≤ m :=
  redditSubredditLoop_le _ m subs 0 (Nat.zero_le m)

/-- Request total of a default-platform scrape_all: the budgeted Reddit count
plus the three uncounted Hacker News and Indie Hackers fetches. -/
theorem scrapeAllRequests_default (keywords : List String) (m : Nat) :
    scrapeAllRequests keywords ["reddit", "hackernews", "indiehackers"] m =
      redditScrapeRequests keywords (SUBREDDITS_EN.take 7) m + 3 := by
  show 0 + redditScrapeRequests keywords (SUBREDDITS_EN.take 7) m + 2 + 1 =
    redditScrapeRequests keywords (SUBREDDITS_EN.take 7) m + 3
  omega

/-! ## Claim theorems -/

/-- C1 (counterexample): on the three scenario candidates — two reddit leads
sharing external_id "abc" with engagement 10 and 4, one hackernews lead with
no engagement signal — with minimum engagement 5, the scrape pipeline returns
one result, not the claimed two: the engagement filter exempts only the
indiehackers platform, so the hackernews candidate is dropped. -/
theorem scrape_scenario_not_two_results :
    (scrapePipeline [] 5 [redditLead10, redditLead4, hnLead]).length = 1 ∧
    hnLead ∉ scrapePipeline [] 5 [redditLead10, redditLead4, hnLead] := by decide

/-- C1 (amended): with no keyword constraint and minimum engagement 5, the
scrape pipeline on those three candidates returns exactly one result, the
reddit candidate with engagement 10; only indiehackers is exempt from the
engagement filter, so the hackernews candidate does not survive. -/
theorem scrape_scenario_single_reddit_result :
    scrapePipeline [] 5 [redditLead10, redditLead4, hnLead] = [redditLead10] := by decide

/-- C2 (counterexample): with a request budget of 0 — already exhausted — a
scrape_all over the default platforms still issues 3 fetch calls (two for
Hacker News, one for Indie Hackers), violating the claimed single shared
budget over all adapter calls. -/
theorem scrape_all_budget_exceeded_at_zero :
    scrapeAllRequests ["automation"] ["reddit", "hackernews", "indiehackers"] 0 = 3 ∧
    ¬ scrapeAllRequests ["automation"] ["reddit", "hackernews", "indiehackers"] 0 ≤ 0 := by
  decide

/-- C2 (amended): the max_requests budget caps only the Reddit adapter's
search requests; the Hacker News and Indie Hackers adapters together always
add exactly 3 uncounted fetch calls, so a default scrape_all issues the
budgeted Reddit count (at most max_requests) plus 3. -/
theorem scrape_all_budget_covers_reddit_only :
    ∀ (keywords : List String) (maxRequests : Nat),
      scrapeAllRequests keywords ["reddit", "hackernews", "indiehackers"] maxRequests =
        redditScrapeRequests keywords (SUBREDDITS_EN.take 7) maxRequests + 3 ∧
      redditScrapeRequests keywords (SUBREDDITS_EN.take 7) maxRequests ≤ maxRequests := by
  intro keywords m
  exact ⟨scrapeAllRequests_default keywords m, redditScrapeRequests_le _ _ _⟩

/-- C3 (counterexample): polite_get returns without the post-call jitter sleep
on an HTTP-status error and on a network error, not only on timeout,
contradicting the claim that every non-timeout completion sleeps. -/
theorem polite_get_skips_sleep_on_errors :
    polite_get (FetchOutcome.httpError 404) = (none, false) ∧
    polite_get (FetchOutcome.networkError "connection refused") = (none, false) ∧
    (polite_get (FetchOutcome.httpError 404)).2 ≠ true := ⟨rfl, rfl, by decide⟩

/-- C3 (amended): polite_get runs the uniformly-random post-call sleep exactly
when the request succeeded; every failure path (timeout, HTTP error, network
error) returns None immediately without sleeping. -/
theorem polite_get_sleeps_only_on_success :
    ∀ o : FetchOutcome,
      ((polite_get o).2 = true) ↔ ∃ body, o = FetchOutcome.success body := by
  intro o
  cases o <;> simp [polite_get]

/-- C4 (code bug): run_ai_scoring can never update a lead's score fields.  The
dict it passes to the qualifier lacks the post_url key the prompt reads, and
even for a successfully returned QualifiedLead the update statement performs
attribute lookup of get on the dataclass, which fails; the swallowed
exception leaves every lead exactly as it was. -/
theorem run_ai_scoring_never_updates_leads :
    ∀ (lead : DbLead) (qres : Option QualifiedLead),
      runAiScoringLead lead qres = lead ∧
      schedulerQualifyInputKeys.contains "post_url" = false := by
  intro lead qres
  refine ⟨?_, rfl⟩
  cases qres with
  | none => rfl
  | some result => rfl

/-- C5: the deduplication step keeps, for every natural key, exactly the first
input candidate bearing that key — restricting both input and output to any
one key, the output is the first element of the input restriction. -/
theorem deduplicate_keeps_first_per_key :
    ∀ (leads : List RawLead) (k : String),
      (deduplicate leads).filter (fun l => dedupKey l == k) =
        (leads.filter (fun l => dedupKey l == k)).take 1 := by
  intro leads k
  simpa using dedupGo_filter k leads []

/-- C6: for every scoring-service response, including out-of-range or missing
numeric fields, the QualifiedLead built by qualify_lead has score, urgency and
willingness_to_pay clamped into [1, 10]. -/
theorem qualify_lead_clamps_bounded_fields :
    ∀ (ld : LeadData) (resp : ScoringResponse),
      1 ≤ (qualify_lead ld resp).score ∧ (qualify_lead ld resp).score ≤ 10 ∧
      1 ≤ (qualify_lead ld resp).urgency ∧ (qualify_lead ld resp).urgency ≤ 10 ∧
      1 ≤ (qualify_lead ld resp).willingness_to_pay ∧
        (qualify_lead ld resp).willingness_to_pay ≤ 10 := by
  intro ld resp
  exact ⟨one_le_clamp _, clamp_le_ten _, one_le_clamp _, clamp_le_ten _,
    one_le_clamp _, clamp_le_ten _⟩

/-- C7: persisting any schedule produced by create_follow_up_schedule a second
time through the uniqueness-constrained lead_follow_ups table is a no-op, and
the table never acquires duplicate (lead_id, sequence_name, position) keys. -/
theorem create_schedule_idempotent_at_unique_key :
    ∀ (lead_id : Nat) (sequence_name : String) (start_date : Int)
      (table sched : List ScheduleEntry),
      create_follow_up_schedule lead_id sequence_name start_date = some sched →
        insertSchedule (insertSchedule table sched) sched = insertSchedule table sched ∧
        (EntryKeyNodup table →
          EntryKeyNodup (insertSchedule (insertSchedule table sched) sched)) := by
  intro _ _ _ table sched _
  refine ⟨insertSchedule_idem sched table, fun h => ?_⟩
  rw [insertSchedule_idem]
  exact insertSchedule_nodup sched table h

/-- C7 witness: the saas_demo schedule for lead 1 starting at day 0, inserted
twice into an empty table, equals the single insertion, which has no duplicate
keys. -/
theorem create_schedule_idempotent_at_unique_key_witness :
    insertSchedule (insertSchedule [] saasScheduleSample) saasScheduleSample =
        insertSchedule [] saasScheduleSample ∧
      EntryKeyNodup (insertSchedule (insertSchedule [] saasScheduleSample) saasScheduleSample) := by
  have h := create_schedule_idempotent_at_unique_key 1 "saas_demo" 0 [] saasScheduleSample rfl
  exact ⟨h.1, h.2 (by simp [EntryKeyNodup])⟩

/-- C8: should_continue_sequence stops with (false, reason) for a missing
lead, for a replied lead (reason "Lead replied", checked before status), and
for a terminal status (reason naming that status), irrespective of all other
fields; otherwise it continues. -/
theorem should_continue_stop_conditions :
    ∀ l : DbLead,
      should_continue_sequence none = (false, "Lead not found") ∧
      (l.email_replied = true → should_continue_sequence (some l) = (false, "Lead replied")) ∧
      (l.email_replied = false → l.status ∈ STOP_STATUSES →
        should_continue_sequence (some l) = (false, "Lead status is " ++ l.status)) ∧
      ((l.email_replied = true ∨ l.status ∈ STOP_STATUSES) →
        (should_continue_sequence (some l)).1 = false) ∧
      (l.email_replied = false → l.status ∉ STOP_STATUSES →
        should_continue_sequence (some l) = (true, "Continue")) := by
  intro l
  refine ⟨rfl, ?_, ?_, ?_, ?_⟩
  · intro h; simp [should_continue_sequence, h]
  · intro h hs
    simp [should_continue_sequence, h, hs]
  · rintro (h | hs)
    · simp [should_continue_sequence, h]
    · by_cases h : l.email_replied
      · simp [should_continue_sequence, h]
      · simp [should_continue_sequence, h, hs]
  · intro h hs
    simp [should_continue_sequence, h, hs]

/-- C8 witness: concrete replied, converted, and fresh leads produce the
three claimed outcomes. -/
theorem should_continue_stop_conditions_witness :
    should_continue_sequence (some sampleRepliedLead) = (false, "Lead replied") ∧
    should_continue_sequence (some sampleConvertedLead) =
      (false, "Lead status is " ++ sampleConvertedLead.status) ∧
    should_continue_sequence (some sampleFreshLead) = (true, "Continue") :=
  ⟨(should_continue_stop_conditions sampleRepliedLead).2.1 rfl,
   (should_continue_stop_conditions sampleConvertedLead).2.2.1 rfl (by decide),
   (should_continue_stop_conditions sampleFreshLead).2.2.2.2 rfl (by decide)⟩

/-- C9: across any number of persistence cycles, a tenant's leads never gain
two rows sharing a (platform, external_id) pair, and a candidate whose natural
key already exists for that tenant is skipped rather than re-created. -/
theorem leads_unique_per_tenant_platform_external_id :
    ∀ (table : List DbLead) (uid : Nat) (cycles : List (List RawLead)) (u : Nat),
      (TenantKeyNodup table u → TenantKeyNodup (persistCycles table uid cycles) u) ∧
      (∀ raw : RawLead,
        (∃ l ∈ table, l.user_id = uid ∧ l.platform = raw.platform ∧
          l.external_id = raw.external_id) →
          persistStep table uid raw = table) := by
  intro table uid cycles u
  exact ⟨persistCycles_nodup cycles table uid u, fun raw h => persistStep_skips table uid raw h⟩

/-- C9 witness: a table already holding the persisted image of redditLead10
stays key-distinct through a cycle re-offering that candidate, and the
candidate itself is skipped. -/
theorem leads_unique_per_tenant_platform_external_id_witness :
    TenantKeyNodup (persistCycles [mkLead 1 redditLead10] 1 [[redditLead10]]) 1 ∧
      persistStep [mkLead 1 redditLead10] 1 redditLead10 = [mkLead 1 redditLead10] := by
  have h := leads_unique_per_tenant_platform_external_id [mkLead 1 redditLead10] 1 [[redditLead10]] 1
  exact ⟨h.1 (by simp [TenantKeyNodup, List.filter, mkLead, redditLead10]),
    h.2 redditLead10 ⟨mkLead 1 redditLead10, by simp, rfl, rfl, rfl⟩⟩

/-- C10: every lead a persistence cycle adds is the mkLead image of one of its
candidates: persisted with status "new" and a score equal to the clamp of
engagement_score // 5 + 5 into [1, 10] — never without a score. -/
theorem pipeline_leads_created_new_with_clamped_score :
    ∀ (table : List DbLead) (uid : Nat) (raws : List RawLead) (l : DbLead),
      l ∈ persistCandidates table uid raws →
        l ∈ table ∨
          ∃ raw ∈ raws, l = mkLead uid raw ∧ l.status = "new" ∧
            l.score = initialScore raw.engagement_score ∧ 1 ≤ l.score ∧ l.score ≤ 10 := by
  intro table uid raws l hl
  rcases mem_persistCandidates raws table uid l hl with h | ⟨raw, hraw, heq⟩
  · exact Or.inl h
  · subst heq
    exact Or.inr ⟨raw, hraw, rfl, rfl, rfl, one_le_clamp _, clamp_le_ten _⟩

/-- C10 witness: persisting redditLead10 into an empty table yields its mkLead
image, which has status "new" and score 8 within bounds. -/
theorem pipeline_leads_created_new_with_clamped_score_witness :
    mkLead 1 redditLead10 ∈ persistCandidates [] 1 [redditLead10] ∧
      (mkLead 1 redditLead10 ∈ ([] : List DbLead) ∨
        ∃ raw ∈ [redditLead10], mkLead 1 redditLead10 = mkLead 1 raw ∧
          (mkLead 1 redditLead10).status = "new" ∧
          (mkLead 1 redditLead10).score = initialScore raw.engagement_score ∧
          1 ≤ (mkLead 1 redditLead10).score ∧ (mkLead 1 redditLead10).score ≤ 10) := by
  have hmem : mkLead 1 redditLead10 ∈ persistCandidates [] 1 [redditLead10] := by decide
  exact ⟨hmem,
    pipeline_leads_created_new_with_clamped_score [] 1 [redditLead10] (mkLead 1 redditLead10) hmem⟩

end Antigravity
